import Mathlib

/-!
Verification of the error-schema example generator of the Lab-System-Backend
repository (`src/middleware/utils/create-error-schema.ts`).

The file embeds, as executable Lean definitions, the three functions the
specification describes:

* `generateBadData`   — the recursive bad-data synthesizer (tree walk over the
  schema node kinds handled by the source's `switch`),
* `generateErrorExamples` — the example extractor (synthesize, validate,
  harvest the first three issues, with a generic fallback),
* `getDefaultMessage` — the default-message table.

Schema nodes are represented as a tagged union with one constructor per
`typeName` the source dispatches on; JavaScript runtime values are represented
by the `JValue` type (numbers as rationals, so that non-integral literals such
as `1.5` are representable).  The validation library (`safeParse`) is not part
of the repository; the extractor is therefore parameterized by an arbitrary
validator `JValue → Except String ParseResult`, where the `Except.error`
branch models a thrown exception, and a minimal model of the library's
behaviour (`zodValidate`) is supplied for the concrete scenarios.
-/

namespace LabSystem

/-- Path segment as used by the generator: JavaScript `(string | number)[]`. -/
inductive PathSeg where
  | str (s : String)
  | num (n : Nat)
deriving DecidableEq, Repr

/-- Path segment as it may appear in a validator-reported issue: JavaScript
also allows `symbol` segments there, which the extractor stringifies. -/
inductive RawSeg where
  | str (s : String)
  | num (n : Nat)
  | sym (description : String)
deriving DecidableEq, Repr

/-- Stringification applied to each issue-path segment by the extractor:
`typeof p === 'symbol' ? p.toString() : p`; `Symbol(d).toString()` yields
the string `"Symbol(d)"`. -/
def RawSeg.stringify : RawSeg → PathSeg
  | .str s => .str s
  | .num n => .num n
  | .sym d => .str ("Symbol(" ++ d ++ ")")

/-- Checks that can be attached to a `ZodString` node.  The source's loop
recognizes the kinds `email`, `url`, `uuid`, `min` and `max`; every other
kind (regex, length, …) is skipped, which `other` represents.  The numeric
value of a string `min` check is not read by the generator. -/
inductive StrCheck where
  | email
  | url
  | uuid
  | min (value : Nat)
  | max (value : Nat)
  | other (kind : String)
deriving DecidableEq, Repr

/-- Checks that can be attached to a `ZodNumber` node: the source's loop
recognizes `min`, `max` and `int`; other kinds are skipped. -/
inductive NumCheck where
  | min (value : Rat)
  | max (value : Rat)
  | int
  | other (kind : String)
deriving DecidableEq, Repr

/-- Schema nodes: one constructor per `typeName` the source's `switch`
dispatches on, plus `zodOther` for the `default` branch.  A node whose
JavaScript `def.checks` is `undefined` is represented by the empty check
list (the `if (def.checks)` guard and an empty loop behave identically). -/
inductive Schema where
  | zodString (checks : List StrCheck)
  | zodNumber (checks : List NumCheck)
  | zodBoolean
  | zodEnum (values : List String)
  | zodArray (item : Schema)
  | zodObject (shape : List (String × Schema))
  | zodOptional (inner : Schema)
  | zodNullable (inner : Schema)
  | zodUnion (members : List Schema)
  | zodOther

/-- JavaScript runtime values produced by the synthesizer and consumed by a
validator.  Numbers are rationals so that `1.5` is representable. -/
inductive JValue where
  | str (s : String)
  | num (n : Rat)
  | bool (b : Bool)
  | null
  | arr (items : List JValue)
  | obj (fields : List (String × JValue))

mutual

/-- Embedding of the source's `generateBadData(schema, path)`: recursively
generates data that would cause validation errors.  Each `case` of the
source's `switch` is one arm; the string/number check loops are rendered by
structural recursion over the check list (the source tests the five
recognized kinds on each check and falls through to the typed fallback when
no check matches). -/
def generateBadData : Schema → List PathSeg → JValue
  | .zodString checks, _ => stringCheckLoop checks
  | .zodNumber checks, _ => numberCheckLoop checks
  | .zodBoolean, _ => .str "not-boolean"
  | .zodEnum _, _ => .str "invalid-enum-value"
  | .zodArray item, path => .arr [generateBadData item (path ++ [.num 0])]
  | .zodObject shape, path => .obj (genObjFields shape 0 path)
  | .zodOptional inner, path => generateBadData inner path
  | .zodNullable inner, path => generateBadData inner path
  | .zodUnion _, _ => .obj [("invalidUnionValue", .bool true)]
  | .zodOther, _ => .null

/-- Embedding of the `ZodString` check loop: the first check of a recognized
kind decides the value; if none matches, the loop ends and `123` is
returned (invalid type: number instead of string). -/
def stringCheckLoop : List StrCheck → JValue
  | [] => .num 123
  | .email :: _ => .str "invalid-email"
  | .url :: _ => .str "invalid-url"
  | .uuid :: _ => .str "invalid-uuid"
  | .min _ :: _ => .str ""
  | .max v :: _ => .str (String.mk (List.replicate (v + 1) 'a'))
  | .other _ :: rest => stringCheckLoop rest

/-- Embedding of the `ZodNumber` check loop: the first check of a recognized
kind decides the value; if none matches, `'not-a-number'` is returned. -/
def numberCheckLoop : List NumCheck → JValue
  | [] => .str "not-a-number"
  | .min v :: _ => .num (v - 1)
  | .max v :: _ => .num (v + 1)
  | .int :: _ => .num (3 / 2)
  | .other _ :: rest => numberCheckLoop rest

/-- Embedding of the `ZodObject` arm's `Object.keys(shape).forEach((key,
index) => { if (index < 3) badObject[key] = generateBadData(...) })`:
fields at index `< 3` are synthesized, later fields are skipped. -/
def genObjFields : List (String × Schema) → Nat → List PathSeg → List (String × JValue)
  | [], _, _ => []
  | (key, s) :: rest, index, path =>
      if index < 3 then
        (key, generateBadData s (path ++ [.str key])) :: genObjFields rest (index + 1) path
      else
        genObjFields rest (index + 1) path

end

/-- Embedding of the source's `getDefaultMessage(code)`: a fixed record
lookup with `'Validation error'` as the default. -/
def getDefaultMessage (code : String) : String :=
  if code = "invalid_type" then "Invalid type provided"
  else if code = "invalid_string" then "Invalid string format"
  else if code = "too_small" then "Value is too small"
  else if code = "too_big" then "Value is too large"
  else if code = "invalid_enum_value" then "Invalid enum value"
  else if code = "unrecognized_keys" then "Unrecognized keys in object"
  else if code = "required_error" then "Required field is missing"
  else "Validation error"

/-- a validator-reported issue: `code`, `path` (segments may be symbols) and
`message`; a missing or `undefined` message is represented by `""` (both are
falsy under the source's `issue.message || getDefaultMessage(issue.code)`). -/
structure Issue where
  code : String
  path : List RawSeg
  message : String
deriving DecidableEq, Repr

/-- an example record returned by the extractor. -/
structure ErrEx where
  code : String
  path : List PathSeg
  message : String
deriving DecidableEq, Repr

/-- Outcome of a (non-throwing) `safeParse` call: `success`, or failure
carrying `error.issues`. -/
inductive ParseResult where
  | success
  | failure (issues : List Issue)
deriving DecidableEq, Repr

/-- the mapping the extractor applies to each harvested issue:
`{code: issue.code, path: issue.path.map(stringify symbols), message:
issue.message || getDefaultMessage(issue.code)}`. -/
def mapIssue (i : Issue) : ErrEx :=
  { code := i.code
    path := i.path.map RawSeg.stringify
    message := if i.message = "" then getDefaultMessage i.code else i.message }

/-- the generic fallback example of the source. -/
def fallbackExample : ErrEx :=
  { code := "invalid_type"
    path := [.str "field"]
    message := "Expected string, received number" }

/-- the fixed prefix of the `console.warn` emitted on the catch path. -/
def warnMessage : String := "Failed to generate schema-specific error examples:"

/-- Embedding of the `try`/`catch` body of `generateErrorExamples`, with the
two fallible steps abstracted: `synth` is the outcome of
`generateBadData` (`Except.error` models a thrown exception) and `validate`
is `schema.safeParse` (again, `Except.error` models a throw).  Returns the
example list together with the list of warnings logged (`console.warn` fires
exactly on the catch path).  On failure the first three issues are mapped;
on success or on a caught exception the generic fallback is returned. -/
def extractExamples (synth : Except String JValue)
    (validate : JValue → Except String ParseResult) : List ErrEx × List String :=
  match synth with
  | .error e => ([fallbackExample], [warnMessage ++ e])
  | .ok badData =>
    match validate badData with
    | .error e => ([fallbackExample], [warnMessage ++ e])
    | .ok .success => ([fallbackExample], [])
    | .ok (.failure issues) => ((issues.take 3).map mapIssue, [])

/-- Embedding of the source's `generateErrorExamples(schema)`: synthesis in
the embedding is the total function `generateBadData` (so `synth` is always
`Except.ok`), and the schema's own `safeParse` is passed explicitly as
`validate`. -/
def generateErrorExamples (schema : Schema)
    (validate : JValue → Except String ParseResult) : List ErrEx :=
  (extractExamples (Except.ok (generateBadData schema [])) validate).1

/-- a string check is recognized when the source's loop tests for its kind
(`email`, `url`, `uuid`, `min`, `max`). -/
def strRecognized : StrCheck → Bool
  | .other _ => false
  | _ => true

/-- a number check is recognized when the source's loop tests for its kind
(`min`, `max`, `int`). -/
def numRecognized : NumCheck → Bool
  | .other _ => false
  | _ => true

/-- the key list of a synthesized object value (empty for non-objects). -/
def objKeys : JValue → List String
  | .obj fields => fields.map Prod.fst
  | _ => []

/-- the per-issue example record as the specification words it: the code is
the issue's code, the path is the issue's path with symbol segments
stringified, and the message is the validator-supplied message or, when that
message is empty, the default message keyed by the code per the spec's
table. -/
def specIssueExample (i : Issue) : ErrEx :=
  { code := i.code
    path := i.path.map RawSeg.stringify
    message :=
      if i.message = "" then
        if i.code = "invalid_type" then "Invalid type provided"
        else if i.code = "invalid_string" then "Invalid string format"
        else if i.code = "too_small" then "Value is too small"
        else if i.code = "too_big" then "Value is too large"
        else if i.code = "invalid_enum_value" then "Invalid enum value"
        else if i.code = "unrecognized_keys" then "Unrecognized keys in object"
        else if i.code = "required_error" then "Required field is missing"
        else "Validation error"
      else i.message }

/-- Modelled from the spec: issues reported by the validation library for a
number against its checks (`min = m` rejects values below `m` with a
`too_small` issue, `max` symmetrically with `too_big`, `int` rejects
non-integral values).  Messages are left empty — the capability contract
makes the per-issue message optional. -/
def numIssues (checks : List NumCheck) (path : List RawSeg) (n : Rat) : List Issue :=
  match checks with
  | [] => []
  | .min v :: rest =>
      (if n < v then [⟨"too_small", path, ""⟩] else []) ++ numIssues rest path n
  | .max v :: rest =>
      (if v < n then [⟨"too_big", path, ""⟩] else []) ++ numIssues rest path n
  | .int :: rest =>
      (if n.den = 1 then [] else [⟨"invalid_type", path, ""⟩]) ++ numIssues rest path n
  | .other _ :: rest => numIssues rest path n

/-- first field of the given key in a synthesized object. -/
def lookupField (key : String) : List (String × JValue) → Option JValue
  | [] => none
  | (k, v) :: rest => if k = key then some v else lookupField key rest

/-- whether a schema node tolerates an absent object field. -/
def isOptionalSchema : Schema → Bool
  | .zodOptional _ => true
  | _ => false

mutual

/-- Modelled from the spec: the validation library's `safeParse` is not part
of this repository, only a capability the extractor consumes
(`validate(value) -> \x7bsuccess, issues[]\x7d` with per-issue `code`, `path` and
optional `message`).  This model covers the node kinds the spec's concrete
scenarios exercise — objects (required fields, per-field recursion with the
key appended to the path), numbers with their checks, plain strings,
booleans, enums, optional and nullable wrappers — and is permissive on the
remaining kinds, which no claim exercises. -/
def zodValidate : Schema → List RawSeg → JValue → List Issue
  | .zodString _, path, v =>
      match v with
      | .str _ => []
      | _ => [⟨"invalid_type", path, ""⟩]
  | .zodNumber checks, path, v =>
      match v with
      | .num n => numIssues checks path n
      | _ => [⟨"invalid_type", path, ""⟩]
  | .zodBoolean, path, v =>
      match v with
      | .bool _ => []
      | _ => [⟨"invalid_type", path, ""⟩]
  | .zodEnum values, path, v =>
      match v with
      | .str s => if s ∈ values then [] else [⟨"invalid_enum_value", path, ""⟩]
      | _ => [⟨"invalid_type", path, ""⟩]
  | .zodObject shape, path, v =>
      match v with
      | .obj fields => objIssues shape fields path
      | _ => [⟨"invalid_type", path, ""⟩]
  | .zodOptional inner, path, v => zodValidate inner path v
  | .zodNullable inner, path, v =>
      match v with
      | .null => []
      | _ => zodValidate inner path v
  | .zodArray _, _, _ => []
  | .zodUnion _, _, _ => []
  | .zodOther, _, _ => []

/-- Modelled from the spec: per-field validation of an object — each declared
field is looked up in the value, validated recursively with its key appended
to the path, and a missing non-optional field yields a required
(`invalid_type`) issue. -/
def objIssues : List (String × Schema) → List (String × JValue) → List RawSeg → List Issue
  | [], _, _ => []
  | (key, s) :: rest, fields, path =>
      (match lookupField key fields with
       | some v => zodValidate s (path ++ [.str key]) v
       | none => if isOptionalSchema s then [] else [⟨"invalid_type", path ++ [.str key], ""⟩])
      ++ objIssues rest fields path

end

/-- Modelled from the spec: `safeParse` as the extractor consumes it —
success when the modelled validator reports no issues, failure carrying the
issue list otherwise; the model itself never throws. -/
def zodSafeParse (s : Schema) (v : JValue) : Except String ParseResult :=
  match zodValidate s [] v with
  | [] => Except.ok ParseResult.success
  | issues => Except.ok (ParseResult.failure issues)

/-! ## Lemmas and claim theorems -/

/-- checks the string loop skips (unrecognized kinds) do not affect its
result. -/
lemma stringCheckLoop_skip (pre rest : List StrCheck)
    (h : ∀ x ∈ pre, strRecognized x = false) :
    stringCheckLoop (pre ++ rest) = stringCheckLoop rest := by
  induction pre with
  | nil => simp
  | cons c cs ih =>
      have hc := h c (List.mem_cons_self c cs)
      have hcs : ∀ x ∈ cs, strRecognized x = false :=
        fun x hx => h x (List.mem_cons_of_mem _ hx)
      cases c with
      | other k => simpa [stringCheckLoop] using ih hcs
      | email => simp [strRecognized] at hc
      | url => simp [strRecognized] at hc
      | uuid => simp [strRecognized] at hc
      | min v => simp [strRecognized] at hc
      | max v => simp [strRecognized] at hc

/-- a recognized check at the head of the string loop decides the result. -/
lemma stringCheckLoop_first (c : StrCheck) (suf : List StrCheck)
    (h : strRecognized c = true) :
    stringCheckLoop (c :: suf) = stringCheckLoop [c] := by
  cases c with
  | other k => simp [strRecognized] at h
  | email => simp [stringCheckLoop]
  | url => simp [stringCheckLoop]
  | uuid => simp [stringCheckLoop]
  | min v => simp [stringCheckLoop]
  | max v => simp [stringCheckLoop]

/-- checks the number loop skips (unrecognized kinds) do not affect its
result. -/
lemma numberCheckLoop_skip (pre rest : List NumCheck)
    (h : ∀ x ∈ pre, numRecognized x = false) :
    numberCheckLoop (pre ++ rest) = numberCheckLoop rest := by
  induction pre with
  | nil => simp
  | cons c cs ih =>
      have hc := h c (List.mem_cons_self c cs)
      have hcs : ∀ x ∈ cs, numRecognized x = false :=
        fun x hx => h x (List.mem_cons_of_mem _ hx)
      cases c with
      | other k => simpa [numberCheckLoop] using ih hcs
      | min v => simp [numRecognized] at hc
      | max v => simp [numRecognized] at hc
      | int => simp [numRecognized] at hc

/-- a recognized check at the head of the number loop decides the result. -/
lemma numberCheckLoop_first (c : NumCheck) (suf : List NumCheck)
    (h : numRecognized c = true) :
    numberCheckLoop (c :: suf) = numberCheckLoop [c] := by
  cases c with
  | other k => simp [numRecognized] at h
  | min v => simp [numberCheckLoop]
  | max v => simp [numberCheckLoop]
  | int => simp [numberCheckLoop]

/-- keys of the fields synthesized for an object: the declared names taken
up to index `3`. -/
lemma genObjFields_map_fst (l : List (String × Schema)) (i : ℕ) (p : List PathSeg) :
    (genObjFields l i p).map Prod.fst = (l.map Prod.fst).take (3 - i) := by
  induction l generalizing i with
  | nil => simp [genObjFields]
  | cons hd tl ih =>
      obtain ⟨k, s⟩ := hd
      by_cases hlt : i < 3
      · have h3 : 3 - i = (3 - (i + 1)) + 1 := by omega
        simp only [genObjFields, if_pos hlt, List.map_cons, ih, h3, List.take_succ_cons]
      · have h1 : 3 - i = 0 := by omega
        have h2 : 3 - (i + 1) = 0 := by omega
        simp [genObjFields, if_neg hlt, ih, h1, h2]

/-- C8: for every schema `s`, the bad data synthesized for `Optional(s)` and
for `Nullable(s)` is the bad data synthesized for `s` itself — the wrapper
is ignored. -/
theorem optional_nullable_pass_through (s : Schema) (p : List PathSeg) :
    generateBadData (Schema.zodOptional s) p = generateBadData s p ∧
    generateBadData (Schema.zodNullable s) p = generateBadData s p := by
  constructor <;> simp [generateBadData]

/-- C2: whenever the validator reports success on the synthesized bad value,
the extractor returns exactly the one-element list holding the generic
fallback example — never an empty list (and, being a total function, never a
thrown error). -/
theorem validator_success_yields_fallback (schema : Schema)
    (validate : JValue → Except String ParseResult)
    (h : validate (generateBadData schema []) = Except.ok ParseResult.success) :
    generateErrorExamples schema validate
      = [⟨"invalid_type", [PathSeg.str "field"], "Expected string, received number"⟩] := by
  simp [generateErrorExamples, extractExamples, h, fallbackExample]

/-- witness for C2: an always-permissive validator on the opaque schema
yields exactly the generic fallback example. -/
theorem validator_success_yields_fallback_witness :
    generateErrorExamples Schema.zodOther (fun _ => Except.ok ParseResult.success)
      = [⟨"invalid_type", [PathSeg.str "field"], "Expected string, received number"⟩] :=
  validator_success_yields_fallback Schema.zodOther _ rfl

/-- C1: the extractor never propagates an exception: when synthesis throws
(first conjunct, `synth = Except.error e`) or validation throws (second
conjunct), the failure is caught, the warning is logged, and the single
generic fallback example is returned. -/
theorem extractor_exception_safe :
    (∀ (synth : Except String JValue) (validate : JValue → Except String ParseResult)
        (e : String), synth = Except.error e →
        extractExamples synth validate
          = ([⟨"invalid_type", [PathSeg.str "field"], "Expected string, received number"⟩],
             [warnMessage ++ e])) ∧
    (∀ (schema : Schema) (validate : JValue → Except String ParseResult) (e : String),
        validate (generateBadData schema []) = Except.error e →
        generateErrorExamples schema validate
          = [⟨"invalid_type", [PathSeg.str "field"], "Expected string, received number"⟩]) := by
  constructor
  · intro synth validate e he
    subst he
    rfl
  · intro schema validate e h
    simp [generateErrorExamples, extractExamples, h, fallbackExample]

/-- witness for C1: a throwing synthesis step and a throwing validator both
produce the generic fallback example (with the warning logged). -/
theorem extractor_exception_safe_witness :
    extractExamples (Except.error "boom") (fun _ => Except.ok ParseResult.success)
      = ([⟨"invalid_type", [PathSeg.str "field"], "Expected string, received number"⟩],
         [warnMessage ++ "boom"]) ∧
    generateErrorExamples Schema.zodOther (fun _ => Except.error "boom")
      = [⟨"invalid_type", [PathSeg.str "field"], "Expected string, received number"⟩] :=
  ⟨extractor_exception_safe.1 _ _ "boom" rfl,
   extractor_exception_safe.2 Schema.zodOther _ "boom" rfl⟩

/-- C7: the extractor and the synthesizer are deterministic — two calls on
the same schema yield identical output — and the extractor's output depends
only on the schema and the validator's extensional behaviour (no hidden
randomness or state). -/
theorem extractor_deterministic :
    (∀ (schema : Schema) (validate : JValue → Except String ParseResult),
        generateErrorExamples schema validate = generateErrorExamples schema validate) ∧
    (∀ (schema : Schema) (p : List PathSeg),
        generateBadData schema p = generateBadData schema p) ∧
    (∀ (schema : Schema) (v w : JValue → Except String ParseResult),
        (∀ x, v x = w x) →
        generateErrorExamples schema v = generateErrorExamples schema w) := by
  refine ⟨fun _ _ => rfl, fun _ _ => rfl, fun schema v w h => ?_⟩
  simp only [generateErrorExamples, extractExamples, h (generateBadData schema [])]

/-- witness for C7: two syntactically different but extensionally equal
validators give the same extractor output. -/
theorem extractor_deterministic_witness :
    generateErrorExamples Schema.zodBoolean (fun _ => Except.ok ParseResult.success)
      = generateErrorExamples Schema.zodBoolean
          (fun v => match v with
            | .null => Except.ok ParseResult.success
            | _ => Except.ok ParseResult.success) :=
  extractor_deterministic.2.2 _ _ _ (fun x => by cases x <;> rfl)

/-- C10: the synthesized value does not depend on the `path` argument — the
path is threaded through the recursion but never influences the result. -/
theorem badData_path_independent :
    ∀ (s : Schema) (p q : List PathSeg), generateBadData s p = generateBadData s q := by
  have H := generateBadData.induct
    (fun s p => ∀ q, generateBadData s p = generateBadData s q)
    (fun l i p => ∀ q, genObjFields l i p = genObjFields l i q)
  refine fun s p q => H ?_ ?_ ?_ ?_ ?_ ?_ ?_ ?_ ?_ ?_ ?_ ?_ ?_ s p q
  · intro checks x q
    simp [generateBadData]
  · intro checks x q
    simp [generateBadData]
  · intro x q
    simp [generateBadData]
  · intro values x q
    simp [generateBadData]
  · intro item path ih q
    simp only [generateBadData]
    rw [ih (q ++ [PathSeg.num 0])]
  · intro shape path ih q
    simp only [generateBadData]
    rw [ih q]
  · intro inner path ih q
    simp only [generateBadData]
    exact ih q
  · intro inner path ih q
    simp only [generateBadData]
    exact ih q
  · intro members x q
    simp [generateBadData]
  · intro x q
    simp [generateBadData]
  · intro i x q
    simp [genObjFields]
  · intro key s rest index path hlt ih1 ih2 q
    simp only [genObjFields, if_pos hlt]
    rw [ih1 (q ++ [PathSeg.str key]), ih2 q]
  · intro key s rest index path hlt ih2 q
    simp only [genObjFields, if_neg hlt]
    exact ih2 q

/-- C4: for an object schema, the synthesized object's keys are exactly the
first 3 declared field names in declaration order; with more than 3 declared
fields that is exactly 3 keys, and later fields are omitted. -/
theorem object_keys_truncated (shape : List (String × Schema)) (p : List PathSeg)
    (h : 3 < shape.length) :
    objKeys (generateBadData (Schema.zodObject shape) p) = (shape.map Prod.fst).take 3 ∧
    (objKeys (generateBadData (Schema.zodObject shape) p)).length = 3 := by
  have hk : objKeys (generateBadData (Schema.zodObject shape) p)
      = (shape.map Prod.fst).take 3 := by
    simp [generateBadData, objKeys, genObjFields_map_fst]
  refine ⟨hk, ?_⟩
  rw [hk]
  simp only [List.length_take, List.length_map]
  omega

/-- witness for C4: a 4-field object schema synthesizes exactly the first 3
field names. -/
theorem object_keys_truncated_witness :
    objKeys (generateBadData (Schema.zodObject
      [("a", Schema.zodBoolean), ("b", Schema.zodBoolean),
       ("c", Schema.zodBoolean), ("d", Schema.zodBoolean)]) []) = ["a", "b", "c"] := by
  have h := object_keys_truncated
    [("a", Schema.zodBoolean), ("b", Schema.zodBoolean),
     ("c", Schema.zodBoolean), ("d", Schema.zodBoolean)] [] (by simp)
  rw [h.1]
  rfl

/-- C5: for string and number schema nodes, the synthesized value is decided
by the first recognized constraint in declaration order (checks before it
being unrecognized); the constraints after it have no influence — the value
equals that of the schema carrying the first recognized constraint alone. -/
theorem first_matching_constraint_decides :
    (∀ (pre : List StrCheck) (c : StrCheck) (suf : List StrCheck) (p q : List PathSeg),
        (∀ x ∈ pre, strRecognized x = false) → strRecognized c = true →
        generateBadData (Schema.zodString (pre ++ c :: suf)) p
          = generateBadData (Schema.zodString [c]) q) ∧
    (∀ (pre : List NumCheck) (c : NumCheck) (suf : List NumCheck) (p q : List PathSeg),
        (∀ x ∈ pre, numRecognized x = false) → numRecognized c = true →
        generateBadData (Schema.zodNumber (pre ++ c :: suf)) p
          = generateBadData (Schema.zodNumber [c]) q) := by
  constructor
  · intro pre c suf p q hpre hc
    simp only [generateBadData]
    rw [stringCheckLoop_skip pre _ hpre, stringCheckLoop_first c suf hc]
  · intro pre c suf p q hpre hc
    simp only [generateBadData]
    rw [numberCheckLoop_skip pre _ hpre, numberCheckLoop_first c suf hc]

/-- witness for C5: with an unrecognized check first, the first recognized
check (`email`, resp. `max 9`) decides the value regardless of the
constraints after it and of the path. -/
theorem first_matching_constraint_decides_witness :
    generateBadData (Schema.zodString
        [StrCheck.other "regex", StrCheck.email, StrCheck.max 2]) []
      = generateBadData (Schema.zodString [StrCheck.email]) [PathSeg.num 0] ∧
    generateBadData (Schema.zodNumber
        [NumCheck.other "mult", NumCheck.max 9, NumCheck.min 2]) []
      = generateBadData (Schema.zodNumber [NumCheck.max 9]) [PathSeg.num 0] :=
  ⟨first_matching_constraint_decides.1 [StrCheck.other "regex"] StrCheck.email
      [StrCheck.max 2] [] [PathSeg.num 0]
      (fun x hx => by simp at hx; subst hx; rfl) rfl,
   first_matching_constraint_decides.2 [NumCheck.other "mult"] (NumCheck.max 9)
      [NumCheck.min 2] [] [PathSeg.num 0]
      (fun x hx => by simp at hx; subst hx; rfl) rfl⟩

/-- C3: whenever validation of the synthesized value fails, the extractor
returns exactly the first 3 reported issues (all of them when fewer), in
order, each mapped as the spec words it (code copied, symbol path segments
stringified, validator message or the code-keyed default when empty). -/
theorem failure_maps_first_three (schema : Schema)
    (validate : JValue → Except String ParseResult) (issues : List Issue)
    (h : validate (generateBadData schema []) = Except.ok (ParseResult.failure issues)) :
    generateErrorExamples schema validate = (issues.take 3).map specIssueExample ∧
    (generateErrorExamples schema validate).length = min issues.length 3 := by
  have key : generateErrorExamples schema validate = (issues.take 3).map mapIssue := by
    simp [generateErrorExamples, extractExamples, h]
  constructor
  · rw [key]
    congr 1
  · rw [key]
    simp only [List.length_map, List.length_take]
    omega

/-- witness for C3: a validator reporting four issues (one with an empty
message, one with a symbol path segment, one with a supplied message) yields
the first three, mapped per the spec. -/
theorem failure_maps_first_three_witness :
    generateErrorExamples Schema.zodOther
        (fun _ => Except.ok (ParseResult.failure
          [⟨"too_small", [RawSeg.str "age"], ""⟩,
           ⟨"custom_code", [RawSeg.sym "s", RawSeg.num 1], "keep me"⟩,
           ⟨"invalid_type", [], ""⟩,
           ⟨"too_big", [], ""⟩]))
      = [⟨"too_small", [PathSeg.str "age"], "Value is too small"⟩,
         ⟨"custom_code", [PathSeg.str "Symbol(s)", PathSeg.num 1], "keep me"⟩,
         ⟨"invalid_type", [], "Invalid type provided"⟩] := by
  have h := failure_maps_first_three Schema.zodOther
    (fun _ => Except.ok (ParseResult.failure
      [⟨"too_small", [RawSeg.str "age"], ""⟩,
       ⟨"custom_code", [RawSeg.sym "s", RawSeg.num 1], "keep me"⟩,
       ⟨"invalid_type", [], ""⟩,
       ⟨"too_big", [], ""⟩])) _ rfl
  rw [h.1]
  rfl

/-- counterexample to C6 as stated: the number schema with checks
`[max 10, min 18]` carries a min constraint of value 18, yet the synthesized
value is `11` (`max + 1`, from the first recognized check), not `17`
(`min − 1`). -/
theorem min_not_first_counterexample :
    generateBadData (Schema.zodNumber [NumCheck.max 10, NumCheck.min 18]) []
      = JValue.num 11 ∧
    JValue.num 11 ≠ JValue.num (18 - 1) := by
  constructor
  · simp only [generateBadData, numberCheckLoop]
    norm_num
  · intro h
    injection h with h
    norm_num at h

/-- C6 (amended): for number schemas whose first recognized constraint is
`min m`, the synthesized value is `m − 1`; the modelled validator reports a
`too_small` issue on it; and for the object schema `\x7b age: number.min(18) \x7d`
the synthesized data is `\x7b age: 17 \x7d` and the extracted example is one
`too_small` issue at path `["age"]` with the default message. -/
theorem min_first_synthesizes_minus_one :
    (∀ (pre : List NumCheck) (m : Rat) (suf : List NumCheck) (p : List PathSeg),
        (∀ x ∈ pre, numRecognized x = false) →
        generateBadData (Schema.zodNumber (pre ++ NumCheck.min m :: suf)) p
          = JValue.num (m - 1)) ∧
    (∀ (m : Rat) (path : List RawSeg),
        zodValidate (Schema.zodNumber [NumCheck.min m]) path (JValue.num (m - 1))
          = [⟨"too_small", path, ""⟩]) ∧
    generateBadData (Schema.zodObject [("age", Schema.zodNumber [NumCheck.min 18])]) []
      = JValue.obj [("age", JValue.num 17)] ∧
    generateErrorExamples (Schema.zodObject [("age", Schema.zodNumber [NumCheck.min 18])])
        (zodSafeParse (Schema.zodObject [("age", Schema.zodNumber [NumCheck.min 18])]))
      = [⟨"too_small", [PathSeg.str "age"], "Value is too small"⟩] := by
  refine ⟨?_, ?_, ?_, ?_⟩
  · intro pre m suf p hpre
    simp only [generateBadData]
    rw [numberCheckLoop_skip pre _ hpre]
    simp [numberCheckLoop]
  · intro m path
    have hm : m - 1 < m := by linarith
    simp [zodValidate, numIssues, hm]
  · simp only [generateBadData, genObjFields, numberCheckLoop]
    norm_num
  · have hm : (17 : Rat) < 18 := by norm_num
    simp [generateErrorExamples, extractExamples, zodSafeParse, zodValidate, objIssues,
      numIssues, lookupField, generateBadData, genObjFields, numberCheckLoop, mapIssue,
      getDefaultMessage, RawSeg.stringify, hm]

/-- witness for C6 (amended): with an unrecognized check before it, a
`min 5` constraint synthesizes `4`. -/
theorem min_first_synthesizes_minus_one_witness :
    generateBadData (Schema.zodNumber [NumCheck.other "mult", NumCheck.min 5]) []
      = JValue.num 4 := by
  have h := min_first_synthesizes_minus_one.1 [NumCheck.other "mult"] 5 [] []
    (fun x hx => by simp at hx; subst hx; rfl)
  simp only [List.cons_append, List.nil_append] at h
  rw [h]
  norm_num

/-- counterexample to C9 as stated: for the enum schema whose allowed set is
`["invalid-enum-value"]`, the synthesized value is the string
`"invalid-enum-value"`, which lies inside the allowed set. -/
theorem enum_value_inside_allowed_set :
    generateBadData (Schema.zodEnum ["invalid-enum-value"]) []
      = JValue.str "invalid-enum-value" ∧
    "invalid-enum-value" ∈ ["invalid-enum-value"] := by
  constructor
  · simp [generateBadData]
  · simp

/-- C9 (amended): for every enum schema whose allowed set does not contain
the literal `"invalid-enum-value"`, the synthesized value lies outside the
allowed set. -/
theorem enum_value_outside_allowed_set (values : List String) (p : List PathSeg)
    (h : "invalid-enum-value" ∉ values) :
    ∀ v ∈ values, generateBadData (Schema.zodEnum values) p ≠ JValue.str v := by
  intro v hv heq
  simp only [generateBadData] at heq
  injection heq with heq
  subst heq
  exact h hv

/-- witness for C9 (amended): the synthesized value for the enum
`["red", "green"]` differs from both allowed values. -/
theorem enum_value_outside_allowed_set_witness :
    generateBadData (Schema.zodEnum ["red", "green"]) [] ≠ JValue.str "red" ∧
    generateBadData (Schema.zodEnum ["red", "green"]) [] ≠ JValue.str "green" :=
  ⟨enum_value_outside_allowed_set ["red", "green"] [] (by simp) "red" (by simp),
   enum_value_outside_allowed_set ["red", "green"] [] (by simp) "green" (by simp)⟩

end LabSystem
